import Mathlib

/-!
# Verification of the ASR Speech-to-Text Translator backend

A shallow embedding of `app.py` (the single source file of the repository):
the translation gateway `translate_text`, the per-connection recognition
loop `process_audio`, the connection registry and capture-device lifecycle
managed by `websocket_handler` / `start_audio_device`, and the client
message dispatch of the websocket loop.

External effects (the HTTP response, the recognizer's result for a frame,
the parse outcome of a client message) are passed in as explicit data, so
every function here is a pure image of the corresponding Python code path.
-/

set_option autoImplicit false

namespace ASRApp

/-! ## Translation gateway (`translate_text`, app.py lines 51-86) -/

/--
Outcome of the HTTP POST to the translator endpoint, as observed by
`translate_text` after `asyncio.wait_for(future, timeout=5.0)`:

* `timeout` — the 5-second deadline elapsed (`asyncio.TimeoutError`);
* `exn` — any other exception was raised by the call;
* `response status parsed` — a response arrived with the given status code;
  `parsed` is the result of evaluating
  `response.json()[0]["translations"][0]["text"]`: `some t` when the body
  has the expected shape, `none` when that extraction raises.
-/
inductive HttpOutcome where
  | timeout : HttpOutcome
  | exn : HttpOutcome
  | response (status : Nat) (parsed : Option String) : HttpOutcome
  deriving DecidableEq, Repr

/--
The coroutine `translate_text(text, target_lang)` of app.py lines 51-86,
as a function of the HTTP outcome. On a 200 response with a well-formed body it returns
the extracted translation; on a non-200 status it logs and returns `text`;
on `asyncio.TimeoutError` it logs and returns `text`; on any other
exception (including a 200 response whose body extraction raises, since
that line sits inside the same `try`) the `except Exception` handler
returns `text`. The `target_lang` argument only shapes the request, never
the fallback behaviour.
-/
def translate_text (text : String) (target_lang : String) (outcome : HttpOutcome) : String :=
  match outcome with
  | .timeout => text
  | .exn => text
  | .response status parsed =>
    if status = 200 then
      match parsed with
      | some translated => translated
      | none => text
    else
      text

/-! ## Recognition session (`process_audio`, app.py lines 94-163) -/

/-- An event sent to the client socket, abstracting the JSON payloads
built in `process_audio` (`json.dumps` of the shown fields). -/
inductive Event where
  | listeningStarted : Event
  | transcriptionFinal (text : String) : Event
  | transcriptionPartial (text : String) : Event
  | translation (text : String) : Event
  deriving DecidableEq, Repr

/--
What the recognizer reports for one audio frame in `process_audio`:
`rec.AcceptWaveform(data)` returning `True` yields a final result whose
text is `json.loads(rec.Result()).get("text", "")`; returning `False`
yields a partial hypothesis whose text is
`json.loads(rec.PartialResult()).get("partial", "")`.
-/
inductive RecResult where
  | finalRes (text : String) : RecResult
  | partialHyp (text : String) : RecResult
  deriving DecidableEq, Repr

/--
One iteration of the `process_audio` loop body (app.py lines 113-152),
given the current value of `current_partial` and the recognizer's result
for the frame just consumed. `tr` is the behaviour of `translate_text`
under the ambient HTTP environment (text ↦ translated-or-fallback text).
Returns the new `current_partial` and the events sent, in send order.

Final branch (lines 113-138): if the text is non-empty, send the
transcription message, await translation, send the translation message;
`current_partial` is not touched. Partial branch (lines 139-152): the
Python guard `if partial_text and partial_text != current_partial` sends
the partial message and assigns `current_partial = partial_text` only when
the text is non-empty and differs from `current_partial`.
-/
def processResult (tr : String → String) (cur : String) : RecResult → String × List Event
  | .finalRes text =>
    if text = "" then
      (cur, [])
    else
      (cur, [Event.transcriptionFinal text, Event.translation (tr text)])
  | .partialHyp text =>
    if text ≠ "" ∧ text ≠ cur then
      (text, [Event.transcriptionPartial text])
    else
      (cur, [])

/-- The `process_audio` loop over a sequence of recognizer results,
threading `current_partial` and concatenating the sent events. -/
def processResults (tr : String → String) : String → List RecResult → String × List Event
  | cur, [] => (cur, [])
  | cur, r :: rs =>
    let step := processResult tr cur r
    let rest := processResults tr step.1 rs
    (rest.1, step.2 ++ rest.2)

/--
The full event trace of one `process_audio` task (app.py lines 94-163):
`current_partial` starts as `""` (line 98), the
`{"type": "listening_started", ...}` status message is sent first
(lines 101-102), then the loop processes recognizer results until the
task ends.
-/
def processAudio (tr : String → String) (rs : List RecResult) : List Event :=
  Event.listeningStarted :: (processResults tr "" rs).2

/-- Texts of the partial transcription events of a trace, in order. -/
def partialTexts : List Event → List String
  | [] => []
  | Event.transcriptionPartial t :: es => t :: partialTexts es
  | _ :: es => partialTexts es

/-! ## Connection registry and capture-device lifecycle
(`websocket_handler` lines 165-221, `start_audio_device` lines 223-249,
globals `active_connections` / `should_stop` lines 28-31) -/

/--
The global state shared by `websocket_handler` and `start_audio_device`:

* `connections` — `len(active_connections)`;
* `shouldStop` — whether the `should_stop` asyncio event is set;
* `pendingStarts` — `start_audio_device` tasks created by
  `asyncio.create_task` (line 185) that have not yet run far enough to
  open their `sd.RawInputStream`;
* `openStreams` — capture streams currently open (the body of the
  `with stream:` block, lines 237-240, is executing).
-/
structure ServerState where
  connections : Nat
  shouldStop : Bool
  pendingStarts : Nat
  openStreams : Nat
  deriving DecidableEq, Repr

/-- At import time `active_connections` is empty, `should_stop` is a fresh
(unset) `asyncio.Event`, and no device task exists (lines 28-31). -/
def initState : ServerState :=
  { connections := 0, shouldStop := false, pendingStarts := 0, openStreams := 0 }

/--
Scheduler-level events on the shared state. `connect` and `disconnect`
are the atomic (no intervening `await`) registry sections of
`websocket_handler`; `beginStart` is a previously created
`start_audio_device` task reaching `sd.RawInputStream(...)` and entering
`with stream:`; `devicePoll` is one open stream's loop (lines 239-240)
observing `should_stop` set and leaving the `with` block, closing the
stream.
-/
inductive SysEvent where
  | connect : SysEvent
  | disconnect : SysEvent
  | beginStart : SysEvent
  | devicePoll : SysEvent
  deriving DecidableEq, Repr

/--
One step of the shared state.

`connect` (lines 177-185): `active_connections.add(ws)`; if the count is
now 1, `should_stop.clear()` and a `start_audio_device` task is created.

`disconnect` (the `finally` block, lines 212-219): remove the connection;
if the count is now 0, `should_stop.set()`. (A `disconnect` with no
connection cannot occur in a run of the program; it is a no-op here.)

`beginStart` (lines 227-237): a pending task opens the input stream and
enters its polling loop — it does so unconditionally, even if
`should_stop` was set again in the meantime, because the task body never
checks `should_stop` before entering the `while` loop.

`devicePoll` (lines 237-242): an open stream's loop sees `should_stop`
set, exits, and the `with` block closes the stream.
-/
def sysStep (s : ServerState) : SysEvent → ServerState
  | .connect =>
    let n := s.connections + 1
    if n = 1 then
      { s with connections := n, shouldStop := false, pendingStarts := s.pendingStarts + 1 }
    else
      { s with connections := n }
  | .disconnect =>
    if s.connections = 0 then
      s
    else
      let n := s.connections - 1
      if n = 0 then
        { s with connections := 0, shouldStop := true }
      else
        { s with connections := n }
  | .beginStart =>
    if s.pendingStarts = 0 then
      s
    else
      { s with pendingStarts := s.pendingStarts - 1, openStreams := s.openStreams + 1 }
  | .devicePoll =>
    if s.shouldStop ∧ s.openStreams ≠ 0 then
      { s with openStreams := s.openStreams - 1 }
    else
      s

/-- Run the shared state through a sequence of scheduler events. -/
def run (s : ServerState) (evs : List SysEvent) : ServerState :=
  evs.foldl sysStep s

/-! ## Client message dispatch (`websocket_handler` lines 192-210) -/

/--
The value produced by a successful `json.loads(msg.data)`:

* `obj kv` — a JSON object; its fields whose values are strings are the
  association list `kv`, so `data.get("command")` is a lookup in `kv`
  (a field holding a non-string value compares unequal to `"stop"`
  exactly like a missing field, so it is modelled as absent);
* `nonObj` — any other valid JSON document (array, string, number,
  boolean or null, e.g. `[1,2]`): Python's `list`/`str`/`int`/... have no
  `.get` method, so `data.get("command")` raises `AttributeError`.
-/
inductive ParsedJson where
  | obj (kv : List (String × String)) : ParsedJson
  | nonObj : ParsedJson
  deriving DecidableEq, Repr

/--
A message received in the `async for msg in ws` loop. For a TEXT frame,
`parsed` abstracts `json.loads(msg.data)`: `none` when it raises
`json.JSONDecodeError`, `some v` when it returns the value `v`.
`errorMsg` is a frame with `msg.type == WSMsgType.ERROR`.
-/
inductive WsMsg where
  | text (parsed : Option ParsedJson) : WsMsg
  | errorMsg : WsMsg
  deriving DecidableEq, Repr

/-- What the message loop does after one message: keep iterating (the
connection stays open and `process_task` keeps running), `break` out to
the cancel-and-teardown code, or let an uncaught exception escape the
loop — that exception skips the cancel block (lines 205-210), runs only
the `finally` teardown (lines 212-219), and propagates out of
`websocket_handler`, closing the connection. -/
inductive LoopAction where
  | keepGoing : LoopAction
  | endSession : LoopAction
  | raiseError : LoopAction
  deriving DecidableEq, Repr

/-- Python's `data.get("command")` on a parsed JSON object. -/
def jsonGet (kv : List (String × String)) (k : String) : Option String :=
  (kv.find? (fun p => p.1 == k)).map Prod.snd

/--
Dispatch of one websocket message (lines 192-203). A TEXT frame that
fails to parse is logged and ignored (`except json.JSONDecodeError`, loop
continues); a TEXT frame parsed to an object breaks the loop exactly when
`data.get("command") == "stop"`; a TEXT frame parsed to a non-object
document raises `AttributeError` at `data.get`, which
`except json.JSONDecodeError` does not catch, so it escapes the loop; an
ERROR frame logs and breaks.
-/
def handleWsMsg : WsMsg → LoopAction
  | .text none => .keepGoing
  | .text (some (ParsedJson.obj kv)) =>
    if jsonGet kv "command" = some "stop" then .endSession else .keepGoing
  | .text (some ParsedJson.nonObj) => .raiseError
  | .errorMsg => .endSession

/-! ## Session cancellation (`websocket_handler` lines 205-210) -/

/--
The events a session emits when its task is cancelled after consuming `k`
recognizer results: `process_task.cancel()` (line 206) makes the next
await point inside `process_audio` raise `CancelledError`, ending the
loop, and the handler awaits the task and swallows the `CancelledError`
(lines 207-210), so results after the first `k` are never processed and
produce no events.
-/
def sessionEventsCancelledAfter (tr : String → String) (rs : List RecResult) (k : Nat) :
    List Event :=
  processAudio tr (rs.take k)

/-- Text extracted from a recognizer result (`result.get("text", "")` on a
final result, `partial.get("partial", "")` on a partial one). -/
def textOf : RecResult → String
  | .finalRes t => t
  | .partialHyp t => t

/-!
## Helper lemmas
-/

/-- Processing a concatenation of result sequences threads the state and
concatenates the event traces. -/
theorem processResults_append (tr : String → String) :
    ∀ (l1 l2 : List RecResult) (cur : String),
      processResults tr cur (l1 ++ l2) =
        ((processResults tr (processResults tr cur l1).1 l2).1,
          (processResults tr cur l1).2 ++ (processResults tr (processResults tr cur l1).1 l2).2) := by
  intro l1
  induction l1 with
  | nil => intro l2 cur; simp [processResults]
  | cons r l1 ih => intro l2 cur; simp [processResults, ih, List.append_assoc]

/-- Partial-event texts distribute over trace concatenation. -/
theorem partialTexts_append (l1 l2 : List Event) :
    partialTexts (l1 ++ l2) = partialTexts l1 ++ partialTexts l2 := by
  induction l1 with
  | nil => rfl
  | cons e es ih => cases e <;> simp [partialTexts, ih]

/-- Invariant of the `process_audio` loop: starting from dedup state
`cur`, the texts of the emitted partial events form a chain in which each
element differs from its predecessor, anchored at `cur`. -/
theorem processResults_partial_chain (tr : String → String) :
    ∀ (rs : List RecResult) (cur : String),
      List.Chain (· ≠ ·) cur (partialTexts (processResults tr cur rs).2) := by
  intro rs
  induction rs with
  | nil => intro cur; simp [processResults, partialTexts]
  | cons r rs ih =>
    intro cur
    cases r with
    | finalRes t =>
      by_cases ht : t = "" <;>
        simpa [processResults, processResult, ht, partialTexts, partialTexts_append] using ih cur
    | partialHyp t =>
      by_cases hc : t ≠ "" ∧ t ≠ cur
      · simp only [processResults, processResult, if_pos hc, partialTexts_append, partialTexts]
        exact List.Chain.cons (Ne.symm hc.2) (ih t)
      · simpa [processResults, processResult, if_neg hc, partialTexts, partialTexts_append]
          using ih cur

/--
Send-order check for translation events: scanning a trace while carrying
the previously sent event, every translation event must come immediately
after the final transcription event it was computed from (its text being
the translation of that transcription's text).
-/
def translationsFollowFinals (tr : String → String) : Option Event → List Event → Bool
  | _, [] => true
  | prev, e :: rest =>
    (match e, prev with
      | Event.translation t, some (Event.transcriptionFinal s) => t == tr s
      | Event.translation _, _ => false
      | _, _ => true) && translationsFollowFinals tr (some e) rest

/-- Invariant of the `process_audio` loop: whatever was sent before, the
events of processing any result sequence pass the translation send-order
check (each translation directly follows its own final transcription). -/
theorem processResults_translations_follow (tr : String → String) :
    ∀ (rs : List RecResult) (cur : String) (prev : Option Event),
      translationsFollowFinals tr prev (processResults tr cur rs).2 = true := by
  intro rs
  induction rs with
  | nil => intro cur prev; rfl
  | cons r rs ih =>
    intro cur prev
    cases r with
    | finalRes t =>
      by_cases ht : t = ""
      · simpa [processResults, processResult, ht] using ih cur prev
      · simpa [processResults, processResult, ht, translationsFollowFinals] using ih cur _
    | partialHyp t =>
      by_cases hc : t ≠ "" ∧ t ≠ cur
      · simpa [processResults, processResult, if_pos hc, translationsFollowFinals] using ih t _
      · simpa [processResults, processResult, if_neg hc] using ih cur prev

/-- Registry/device safety invariant: whenever a capture stream is open or
a start task is pending, either at least one connection is active or the
stop signal is set. -/
def SafeState (s : ServerState) : Prop :=
  s.openStreams + s.pendingStarts ≠ 0 → 1 ≤ s.connections ∨ s.shouldStop = true

/-- Every scheduler event preserves the safety invariant. -/
theorem sysStep_safe {s : ServerState} (h : SafeState s) (e : SysEvent) :
    SafeState (sysStep s e) := by
  unfold SafeState at h ⊢
  cases e <;> simp only [sysStep] <;> split_ifs <;> intro hne <;> simp_all <;> omega

/-- The safety invariant holds in every state reachable from the initial
state. -/
theorem run_safe (evs : List SysEvent) : SafeState (run initState evs) := by
  have key : ∀ (l : List SysEvent) (s : ServerState), SafeState s → SafeState (run s l) := by
    intro l
    induction l with
    | nil => intro s hs; exact hs
    | cons e es ih => intro s hs; exact ih _ (sysStep_safe hs e)
  refine key evs initState ?_
  intro h
  exact absurd rfl h

/-!
## Verified properties
-/

/-- C1: for every input text and target language, if the translation HTTP
call exceeds the 5-second deadline, returns a non-200 status, or raises
any exception, then `translate_text` returns the original text unchanged
(and, being total here as in the code's `try/except`, never raises to its
caller). -/
theorem translate_text_fallback (text lang : String) (outcome : HttpOutcome)
    (h : outcome = HttpOutcome.timeout ∨ outcome = HttpOutcome.exn ∨
      ∃ status parsed, outcome = HttpOutcome.response status parsed ∧ status ≠ 200) :
    translate_text text lang outcome = text := by
  rcases h with h | h | ⟨status, parsed, h, hs⟩
  · subst h; rfl
  · subst h; rfl
  · subst h; simp [translate_text, hs]

/-- Witness for C1 at a concrete failing call: a 500 response falls back
to the original text. -/
theorem translate_text_fallback_witness :
    translate_text "hello" "fr" (HttpOutcome.response 500 (some "bonjour")) = "hello" :=
  translate_text_fallback "hello" "fr" _
    (Or.inr (Or.inr ⟨500, some "bonjour", rfl, by decide⟩))

/-- C10: a 200 response whose body does not have the expected shape (so
that `response.json()[0]["translations"][0]["text"]` raises) still makes
`translate_text` return the original text, because that extraction sits
inside the same `try` and the `except Exception` handler returns `text`. -/
theorem translate_text_parse_failure_fallback (text lang : String) :
    translate_text text lang (HttpOutcome.response 200 none) = text := rfl

/-- C6: a recognizer result whose extracted text is the empty string
produces no event and leaves the session state unchanged, for both final
results (`if text:` fails) and partial ones (`if partial_text and ...`
fails). -/
theorem empty_text_emits_nothing (tr : String → String) (cur : String) (r : RecResult)
    (h : textOf r = "") : processResult tr cur r = (cur, []) := by
  cases r <;> simp_all [textOf, processResult]

/-- Witness for C6 at a concrete empty final result. -/
theorem empty_text_emits_nothing_witness :
    processResult id "hi" (RecResult.finalRes "") = ("hi", []) :=
  empty_text_emits_nothing id "hi" _ rfl

/-- C3: over any sequence of recognizer results, the texts of the partial
transcription events a session emits form a chain of pairwise-different
neighbours: no two consecutive emitted partial events carry identical
text, because a partial is sent only when it differs from
`current_partial`, which always holds the last emitted partial text. -/
theorem no_consecutive_duplicate_partials (tr : String → String) (rs : List RecResult) :
    List.Chain' (· ≠ ·) (partialTexts (processAudio tr rs)) := by
  have h : List.Chain' (· ≠ ·) ("" :: partialTexts (processResults tr "" rs).2) :=
    processResults_partial_chain tr rs ""
  simpa [processAudio, partialTexts] using h.tail

/-- C5: in the event trace of a session, every translation event
immediately follows the final transcription event of its own utterance,
and its text is the translation of that transcription's text: the final
transcription is sent strictly before the corresponding translation, and
a translation is only sent after its own transcription. -/
theorem translation_follows_own_transcription (tr : String → String) (rs : List RecResult) :
    translationsFollowFinals tr none (processAudio tr rs) = true := by
  simpa [processAudio, translationsFollowFinals]
    using processResults_translations_follow tr rs "" (some Event.listeningStarted)

/-- C9: every event of a session trace other than `listening_started`
comes strictly after a `listening_started` event, which the session sends
first, before processing any frame. -/
theorem listening_started_precedes_events (tr : String → String) (rs : List RecResult)
    (i : Nat) (e : Event) (hi : (processAudio tr rs)[i]? = some e)
    (he : e ≠ Event.listeningStarted) :
    ∃ j, j < i ∧ (processAudio tr rs)[j]? = some Event.listeningStarted := by
  have h0 : (processAudio tr rs)[0]? = some Event.listeningStarted := by
    simp [processAudio]
  refine ⟨0, ?_, h0⟩
  cases i with
  | zero =>
    rw [h0] at hi
    exact absurd (Option.some.inj hi).symm he
  | succ n => exact Nat.succ_pos n

/-- Witness for C9: in a concrete trace, the final transcription at index
1 is preceded by `listening_started` at index 0. -/
theorem listening_started_precedes_events_witness :
    ∃ j, j < 1 ∧
      (processAudio id [RecResult.finalRes "hi"])[j]? = some Event.listeningStarted :=
  listening_started_precedes_events id [RecResult.finalRes "hi"] 1
    (Event.transcriptionFinal "hi") rfl (by decide)

/-- C7 counterexample: a TEXT frame carrying valid JSON that is not an
object (e.g. `[1,2]`) — whose parsed content therefore has no `command`
field equal to `"stop"` — does not let the session continue: `data.get`
raises `AttributeError`, which `except json.JSONDecodeError` does not
catch, so the exception escapes the message loop and the connection
closes. This refutes the claim that only a message whose parsed content
has `command` equal to `"stop"` ends the session. -/
theorem nonobject_json_ends_session :
    handleWsMsg (WsMsg.text (some ParsedJson.nonObj)) ≠ LoopAction.keepGoing ∧
      handleWsMsg (WsMsg.text (some ParsedJson.nonObj)) ≠ LoopAction.endSession ∧
      handleWsMsg (WsMsg.text (some ParsedJson.nonObj)) = LoopAction.raiseError :=
  ⟨by decide, by decide, rfl⟩

/-- C7 amended: a TEXT frame that is not valid JSON is logged and ignored
(the message loop continues, the connection stays open). A TEXT frame
parsed to a JSON object ends the session via the stop path exactly when
its `command` field is `"stop"`. But a TEXT frame parsed to a valid
non-object JSON document also ends the session: `data.get` raises an
uncaught `AttributeError` that escapes the loop, skips the cancel block,
runs only the `finally` teardown, and closes the connection. -/
theorem message_dispatch_amended (kv : List (String × String)) :
    handleWsMsg (WsMsg.text none) = LoopAction.keepGoing ∧
      (handleWsMsg (WsMsg.text (some (ParsedJson.obj kv))) = LoopAction.endSession ↔
        jsonGet kv "command" = some "stop") ∧
      handleWsMsg (WsMsg.text (some ParsedJson.nonObj)) = LoopAction.raiseError := by
  refine ⟨rfl, ?_, rfl⟩
  simp only [handleWsMsg]
  split_ifs with h <;> simp [h]

/-- Witness for the amended C7 at a concrete stop message. -/
theorem message_dispatch_amended_witness :
    handleWsMsg (WsMsg.text (some (ParsedJson.obj [("command", "stop")])))
      = LoopAction.endSession :=
  (message_dispatch_amended [("command", "stop")]).2.1.mpr (by decide)

/-- C2 counterexample: `process_audio` never assigns `current_partial`
in its final-result branch (lines 113-138), so after the final result
"hello" the dedup state still holds the previous utterance's last partial
"hi" instead of the empty string, and a fresh partial hypothesis "hi" for
the next utterance is wrongly suppressed (no event for it in the trace). -/
theorem final_result_keeps_stale_partial_state :
    (processResults id "" [RecResult.partialHyp "hi", RecResult.finalRes "hello"]).1 = "hi" ∧
      (processResults id ""
          [RecResult.partialHyp "hi", RecResult.finalRes "hello",
            RecResult.partialHyp "hi"]).2 =
        [Event.transcriptionPartial "hi", Event.transcriptionFinal "hello",
          Event.translation "hello"] :=
  ⟨rfl, rfl⟩

/-- C2 amended: whenever the recognizer reports a final result with
non-empty text, the session emits the final transcription event (followed
by its translation) exactly once, but the partial-deduplication state is
NOT reset: it is left unchanged, still holding the last emitted partial
text. -/
theorem final_emits_once_no_reset (tr : String → String) (cur text : String)
    (h : text ≠ "") :
    processResult tr cur (RecResult.finalRes text) =
      (cur, [Event.transcriptionFinal text, Event.translation (tr text)]) := by
  simp [processResult, h]

/-- Witness for the amended C2 at a concrete non-empty final result. -/
theorem final_emits_once_no_reset_witness :
    processResult id "hi" (RecResult.finalRes "hello") =
      ("hi", [Event.transcriptionFinal "hello", Event.translation "hello"]) :=
  final_emits_once_no_reset id "hi" "hello" (by decide)

/-- C4 counterexample: connect (spawning the device-start task),
disconnect (setting the stop signal), and only then the start task
opening the stream is a reachable scheduling; it leaves the capture
device running with zero subscribers, refuting the claim that no
reachable state has the device running with zero subscribers. -/
theorem running_with_zero_subscribers_reachable :
    (run initState [SysEvent.connect, SysEvent.disconnect, SysEvent.beginStart]).connections
        = 0 ∧
      (run initState [SysEvent.connect, SysEvent.disconnect, SysEvent.beginStart]).openStreams
        = 1 :=
  ⟨rfl, rfl⟩

/-- C4 amended: a connection arriving at count 0→1 clears the stop signal
and spawns a device-start task; a connection leaving at count 1→0 sets
the stop signal (and a disconnect leaving connections sets it only if it
was already set); a connection arriving at count ≥ 1 touches neither.
Because the start task and the stop poll run asynchronously, the device
can be running with zero subscribers — but in every such reachable state
the stop signal is set, so the stream's next poll of the signal closes
it. -/
theorem capture_lifecycle_amended (evs : List SysEvent) :
    (∀ s : ServerState, s.connections = 0 →
      (sysStep s SysEvent.connect).shouldStop = false ∧
        (sysStep s SysEvent.connect).pendingStarts = s.pendingStarts + 1) ∧
    (∀ s : ServerState, 1 ≤ s.connections →
      ((sysStep s SysEvent.disconnect).shouldStop = true ↔
        (s.connections = 1 ∨ s.shouldStop = true))) ∧
    (∀ s : ServerState, 1 ≤ s.connections →
      (sysStep s SysEvent.connect).shouldStop = s.shouldStop ∧
        (sysStep s SysEvent.connect).pendingStarts = s.pendingStarts) ∧
    ((run initState evs).connections = 0 → (run initState evs).openStreams ≠ 0 →
      (run initState evs).shouldStop = true ∧
        (sysStep (run initState evs) SysEvent.devicePoll).openStreams
          = (run initState evs).openStreams - 1) := by
  refine ⟨?_, ?_, ?_, ?_⟩
  · intro s hs
    simp [sysStep, hs]
  · intro s hs
    have h0 : s.connections ≠ 0 := by omega
    rcases Nat.lt_or_ge s.connections 2 with h2 | h2
    · have h1 : s.connections = 1 := by omega
      simp [sysStep, h0, h1]
    · have h1 : s.connections - 1 ≠ 0 := by omega
      have h1' : s.connections ≠ 1 := by omega
      simp [sysStep, h0, h1, h1']
  · intro s hs
    have h1 : s.connections + 1 ≠ 1 := by omega
    simp [sysStep, h1]
  · intro h0 hopen
    have hsafe := run_safe evs
    unfold SafeState at hsafe
    have hstop : (run initState evs).shouldStop = true := by
      rcases hsafe (by omega) with h | h
      · omega
      · exact h
    refine ⟨hstop, ?_⟩
    simp [sysStep, hstop, hopen]

/-- Witness for the amended C4 along the concrete burst
connect–disconnect–beginStart: the device is running with zero
subscribers, the stop signal is set, and the next poll closes the
stream. -/
theorem capture_lifecycle_amended_witness :
    (run initState [SysEvent.connect, SysEvent.disconnect, SysEvent.beginStart]).shouldStop
        = true ∧
      (sysStep (run initState [SysEvent.connect, SysEvent.disconnect, SysEvent.beginStart])
          SysEvent.devicePoll).openStreams
        = (run initState
            [SysEvent.connect, SysEvent.disconnect, SysEvent.beginStart]).openStreams - 1 :=
  (capture_lifecycle_amended
    [SysEvent.connect, SysEvent.disconnect, SysEvent.beginStart]).2.2.2 rfl (by decide)

/-- C8: a TEXT frame parsed to an object whose `command` is `"stop"`
ends the message loop;
the processing task is then cancelled and awaited with its
`CancelledError` swallowed, so the events actually emitted (those up to
the cancellation point) are a prefix of the uncancelled trace — nothing
further is emitted on that socket — and the `finally` block removes the
connection, leaving zero active connections and a set stop signal when it
was the only one. -/
theorem stop_command_teardown (tr : String → String) (rs : List RecResult) (k : Nat)
    (s : ServerState) (kv : List (String × String))
    (hstop : jsonGet kv "command" = some "stop") (hone : s.connections = 1) :
    handleWsMsg (WsMsg.text (some (ParsedJson.obj kv))) = LoopAction.endSession ∧
      List.IsPrefix (sessionEventsCancelledAfter tr rs k) (processAudio tr rs) ∧
      (sysStep s SysEvent.disconnect).connections = 0 ∧
      (sysStep s SysEvent.disconnect).shouldStop = true := by
  refine ⟨by simp [handleWsMsg, hstop], ?_, by simp [sysStep, hone], by simp [sysStep, hone]⟩
  refine ⟨(processResults tr (processResults tr "" (rs.take k)).1 (rs.drop k)).2, ?_⟩
  have hsplit : rs.take k ++ rs.drop k = rs := List.take_append_drop k rs
  have happ := processResults_append tr (rs.take k) (rs.drop k) ""
  rw [hsplit] at happ
  simp [sessionEventsCancelledAfter, processAudio, happ]

/-- Witness for C8: stopping the only connection mid-utterance after one
processed result. -/
theorem stop_command_teardown_witness :
    handleWsMsg (WsMsg.text (some (ParsedJson.obj [("command", "stop")])))
        = LoopAction.endSession ∧
      List.IsPrefix
        (sessionEventsCancelledAfter id [RecResult.finalRes "a", RecResult.finalRes "b"] 1)
        (processAudio id [RecResult.finalRes "a", RecResult.finalRes "b"]) ∧
      (sysStep
          { connections := 1, shouldStop := false, pendingStarts := 0, openStreams := 1 }
          SysEvent.disconnect).connections = 0 ∧
      (sysStep
          { connections := 1, shouldStop := false, pendingStarts := 0, openStreams := 1 }
          SysEvent.disconnect).shouldStop = true :=
  stop_command_teardown id [RecResult.finalRes "a", RecResult.finalRes "b"] 1
    { connections := 1, shouldStop := false, pendingStarts := 0, openStreams := 1 }
    [("command", "stop")] (by decide) rfl

end ASRApp
